import Mathlib

/-!
Verification of the rebalancing / maker order-execution engine of the
jlp-hedge-trading repository, shallowly embedded in Lean 4.

Conventions of the embedding:
* Python `Decimal` values are modelled as exact rationals (`ℚ`).  The source
  performs only `+ - * /` and comparisons on them; `Decimal.to_integral_value()`
  under the default context (ROUND_HALF_EVEN, no context is ever changed in the
  repository) is modelled by `roundHalfEven` below.
* The float arithmetic in `_split_order` (order values in USD) is modelled by
  the same exact rationals.
* Wall-clock comparisons (`total_timeout`, `order_timeout`, the poll cadence)
  are abstracted: the environment (`Env`) decides the outcome of every timing
  comparison, and also supplies the result of every gateway call
  (`get_depth` / `get_order` / `cancel_order` / `place_order`), one `EnvCell`
  per interaction, consumed in program order.
-/

/-- Python `abs` on `Decimal`, written with an executable `if` (equal to
Mathlib's `|·|`, see `ratAbs_eq`). -/
def ratAbs (x : ℚ) : ℚ := if x < 0 then -x else x

/-- `Decimal.to_integral_value()` under Python's default context:
round to the nearest integer, ties to the even integer.  `Rat.floor` is the
executable floor (equal to `⌊·⌋`, see `ratFloor_eq`). -/
def roundHalfEven (x : ℚ) : ℤ :=
  let f := x.floor
  let r := x - (f : ℚ)
  if r < 1/2 then f
  else if 1/2 < r then f + 1
  else if f % 2 = 0 then f else f + 1

/-- `MakerOrderExecutor.QUANTITY_PRECISION` together with the `.get(pair, 2)`
default used by `_round_quantity`. -/
def quantityPrecision (pair : String) : ℕ :=
  if pair = "SOLUSDT" then 2
  else if pair = "ETHUSDT" then 3
  else if pair = "BTCUSDT" then 3
  else 2

/-- `MakerOrderExecutor.MIN_QUANTITY` together with the `.get(pair, 0.001)`
default used by `_round_quantity`. -/
def minQuantity (pair : String) : ℚ :=
  if pair = "SOLUSDT" then 1/100
  else if pair = "ETHUSDT" then 1/1000
  else if pair = "BTCUSDT" then 1/1000
  else 1/1000

/-- `MakerOrderExecutor._round_quantity` (identical to
`OrderExecutor._round_quantity`): scale by `10^precision`, apply
`to_integral_value()` (half-even, see `roundHalfEven`), unscale, and return 0
when the result is below the pair's minimum order quantity. -/
def round_quantity (pair : String) (quantity : ℚ) : ℚ :=
  let precision := quantityPrecision pair
  let factor : ℚ := 10 ^ precision
  let rounded := (roundHalfEven (quantity * factor) : ℚ) / factor
  if rounded < minQuantity pair then 0 else rounded

/-- `MakerOrderExecutor._get_trading_pair`: `SYMBOL_MAPPING.get(symbol, symbol + "USDT")`. -/
def get_trading_pair (symbol : String) : String :=
  if symbol = "SOL" then "SOLUSDT"
  else if symbol = "ETH" then "ETHUSDT"
  else if symbol = "BTC" then "BTCUSDT"
  else symbol ++ "USDT"

/-- Order side, `OrderSide.SELL` / `OrderSide.BUY` of the client. -/
inductive OrderSide where
  | SELL
  | BUY
deriving DecidableEq

/-- Exchange order status strings, mapped to a closed enum.  `NOT_FOUND` and
`UNKNOWN` are the values `_get_order_status` synthesizes from exceptions. -/
inductive OrderStatus where
  | NEW
  | PARTIALLY_FILLED
  | FILLED
  | CANCELED
  | EXPIRED
  | REJECTED
  | NOT_FOUND
  | UNKNOWN
deriving DecidableEq

/-- `MakerOrderConfig` (services/maker_order_config.py).  `price_precision`
is the dict consumed through `.get(pair, 2)` in `_round_price`, modelled as a
total function.  The wall-clock fields (`order_timeout`, `check_interval_ms`,
`total_timeout`) are kept for fidelity but their comparisons are decided by
the environment (see module comment).  `min_remaining_ratio` of the source is
the field `minRemainingFraction`. -/
structure MakerOrderConfig where
  orderTimeout : ℚ := 5
  checkIntervalMs : ℕ := 200
  priceTolerance : ℚ := 2/10000
  maxIterations : ℕ := 120
  totalTimeout : ℚ := 600
  partialFillThreshold : ℚ := 95/100
  minRemainingFraction : ℚ := 5/100
  splitOrderEnabled : Bool := true
  splitOrderThreshold : ℚ := 500
  splitOrderMinValue : ℚ := 100
  splitOrderMaxValue : ℚ := 300
  splitOrderRandom : Bool := true
  pricePrecision : String → ℕ :=
    fun pair => if pair = "SOLUSDT" then 2 else if pair = "ETHUSDT" then 2
      else if pair = "BTCUSDT" then 1 else 2

/-- `MakerOrderExecutor._round_price`: scale by `10^precision` from the
config's price-precision dict, `to_integral_value()`, unscale. -/
def round_price (cfg : MakerOrderConfig) (pair : String) (price : ℚ) : ℚ :=
  let precision := cfg.pricePrecision pair
  let factor : ℚ := 10 ^ precision
  (roundHalfEven (price * factor) : ℚ) / factor

/-- `MakerOrderExecutor._should_replace_order` (lines 215-251), with
`self.config.price_tolerance` passed explicitly.  Returns only the boolean
(the source also returns a log string). -/
def should_replace_order (tolerance : ℚ) (side : OrderSide)
    (order_price current_best_price : ℚ) : Bool :=
  if order_price = 0 then false
  else
    let price_change := ratAbs (current_best_price - order_price) / order_price
    match side with
    | .SELL =>
      if order_price < current_best_price then true
      else if tolerance < price_change then true
      else false
    | .BUY =>
      if current_best_price < order_price then true
      else if tolerance < price_change then true
      else false

/-- The `while remaining_value > 0` loop of `MakerOrderExecutor._split_order`
(lines 155-183).  `draws` supplies the outcomes of `random.uniform(min, max)`
(consumed at index `k`, one per pass that draws); `fuel` bounds the number of
passes (the source loop can fail to terminate when a reassigned clip keeps
rounding to zero; every theorem below quantifies over all fuels).  The float
arithmetic of the source is modelled exactly over `ℚ`. -/
def splitGo (cfg : MakerOrderConfig) (pair : String) (price : ℚ) (draws : ℕ → ℚ) :
    ℕ → ℚ → ℕ → List ℚ
  | 0, _, _ => []
  | fuel + 1, remaining_value, k =>
    if 0 < remaining_value then
      let split_value :=
        if remaining_value ≤ cfg.splitOrderMaxValue then remaining_value
        else if cfg.splitOrderRandom then draws k
        else (cfg.splitOrderMinValue + cfg.splitOrderMaxValue) / 2
      let split_qty := round_quantity pair (split_value / price)
      if 0 < split_qty then
        let remaining_qty := remaining_value / price
        let split_qty :=
          if remaining_qty < split_qty then round_quantity pair remaining_qty
          else split_qty
        if 0 < split_qty then
          split_qty :: splitGo cfg pair price draws fuel
            (remaining_value - split_qty * price) (k + 1)
        else
          -- the inner `if split_qty > 0` fails: the source loop continues
          -- with `remaining_value` unchanged
          splitGo cfg pair price draws fuel remaining_value (k + 1)
      else []  -- `break`
    else []

/-- `MakerOrderExecutor._split_order` (lines 124-193). -/
def split_order (cfg : MakerOrderConfig) (pair : String) (quantity price : ℚ)
    (draws : ℕ → ℚ) (fuel : ℕ) : List ℚ :=
  if ¬cfg.splitOrderEnabled then [quantity]
  else
    let order_value := quantity * price
    if order_value < cfg.splitOrderThreshold then [quantity]
    else
      let split_quantities := splitGo cfg pair price draws fuel order_value 0
      if split_quantities = [] then [quantity] else split_quantities

/-- Terminal execution status of one clip, `MakerExecutionStatus`. -/
inductive MakerExecutionStatus where
  | SUCCESS
  | PARTIAL
  | FAILED
  | SKIPPED
deriving DecidableEq

/-- `MakerExecutionResult`.  `elapsed_seconds` of the source is dropped:
wall-clock time is abstracted (module comment). -/
structure MakerExecutionResult where
  symbol : String
  status : MakerExecutionStatus
  targetQuantity : ℚ
  filledQuantity : ℚ
  averagePrice : ℚ
  iterations : ℕ
  error : Option String := none
deriving DecidableEq

/-- One environment cell: the answers the outside world (exchange gateway and
wall clock) would give at one interaction point of the loop.  Exactly one cell
is consumed, in program order, per: total-timeout check, `_get_orderbook`
call, `_get_order_status` call, `cancel_order` call, `place_order` call,
wait-loop timing check, and post-wait `order_timeout` check.  The `…Raises`
flags model the calls that the loop does not guard with a local
`try`/`except`, so a `True` there triggers the outer exception path. -/
structure EnvCell where
  totalExpired : Bool := false
  book : Option (ℚ × ℚ) := none
  qStatus : OrderStatus := .UNKNOWN
  qFilled : ℚ := 0
  cancelRaises : Bool := false
  cancelOk : Bool := false
  placeRaises : Bool := false
  placeSuccess : Bool := false
  placeRejected : Bool := false
  waitTimeLeft : Bool := false
  windowElapsed : Bool := true

/-- The environment: an infinite supply of interaction answers. -/
abbrev Env := ℕ → EnvCell

/-- Mutable state of `_execute_maker_loop` (lines 327-333) plus the
environment cursor `k` and an instrumentation counter `placedCount`
(number of successful `place_order` calls; used only to state claims). -/
structure LoopSt where
  totalFilled : ℚ
  totalValue : ℚ
  remaining : ℚ
  iterations : ℕ
  liveOrder : Option ℚ  -- `current_order_id`/`current_order_price`: the resting price when an order is live
  k : ℕ
  placedCount : ℕ
deriving DecidableEq

/-- Consume the next environment cell. -/
def readEnv (env : Env) (st : LoopSt) : EnvCell × LoopSt :=
  (env st.k, { st with k := st.k + 1 })

/-- Fold a reported fill of `f` at resting price `p` into the running totals
(`total_filled += f; total_value += f * p; remaining -= f`). -/
def foldFill (st : LoopSt) (f p : ℚ) : LoopSt :=
  { st with
    totalFilled := st.totalFilled + f
    totalValue := st.totalValue + f * p
    remaining := st.remaining - f }

/-- The `NOT_FOUND` handling: assume the whole remaining quantity filled at
the resting price `p` and set `remaining` to zero. -/
def assumeFilled (st : LoopSt) (p : ℚ) : LoopSt :=
  { st with
    totalFilled := st.totalFilled + st.remaining
    totalValue := st.totalValue + st.remaining * p
    remaining := 0 }

/-- `current_order_id = None; current_order_price = 0`. -/
def clearLive (st : LoopSt) : LoopSt := { st with liveOrder := none }

/-- `iterations += 1`. -/
def bumpIter (st : LoopSt) : LoopSt := { st with iterations := st.iterations + 1 }

/-- `status in ["FILLED", "CANCELED", "EXPIRED", "REJECTED"]`. -/
def isTerminalStatus (s : OrderStatus) : Bool :=
  s = .FILLED ∨ s = .CANCELED ∨ s = .EXPIRED ∨ s = .REJECTED

/-- What a sub-block of the loop body tells the main loop to do next:
`cont` = `continue`, `fall` = fall through to the rest of the pass,
`done` = `break`, `raised` = an unhandled exception escaped. -/
inductive Ctl where
  | cont
  | fall
  | done
  | raised
deriving DecidableEq

/-- Lines 374-438 of `_execute_maker_loop`: the block run when an order is
live and `_should_replace_order` returned true.  Reads: one status query;
then, unless the order is already terminal or `NOT_FOUND`, one
`cancel_order`; and when that cancel returns false, one further status
query. -/
def replaceBlock (env : Env) (st : LoopSt) (p : ℚ) : LoopSt × Ctl :=
  let (c, st) := readEnv env st
  let filled := c.qFilled
  if isTerminalStatus c.qStatus then
    let st := if 0 < filled then foldFill st filled p else st
    (clearLive st, .cont)
  else if c.qStatus = .NOT_FOUND then
    (clearLive (assumeFilled st p), .cont)
  else
    let (c2, st) := readEnv env st
    if c2.cancelRaises then (st, .raised)
    else if c2.cancelOk then
      let st := if 0 < filled then foldFill st filled p else st
      (clearLive (bumpIter st), .fall)
    else
      let (c3, st) := readEnv env st
      let st :=
        if c3.qStatus = .FILLED ∨ c3.qStatus = .NOT_FOUND then
          let actual := if 0 < c3.qFilled then c3.qFilled else st.remaining
          foldFill st actual p
        else st
      (clearLive (bumpIter st), .cont)

/-- Lines 487-542 of `_execute_maker_loop`: the wait-and-poll loop over a
live order at resting price `p`.  Each pass reads one timing cell
(`time.time() - order_start < order_timeout`); while time is left it reads
one status query, and on `PARTIALLY_FILLED` one extra book fetch. -/
def waitGo (tolerance : ℚ) (side : OrderSide) (env : Env) :
    ℕ → LoopSt → ℚ → LoopSt
  | 0, st, _ => st
  | fuel + 1, st, p =>
    let (c, st) := readEnv env st
    if ¬c.waitTimeLeft then st
    else
      let (c2, st) := readEnv env st
      match c2.qStatus with
      | .FILLED => clearLive (foldFill st c2.qFilled p)
      | .CANCELED | .EXPIRED | .REJECTED =>
        clearLive (if 0 < c2.qFilled then foldFill st c2.qFilled p else st)
      | .NOT_FOUND => clearLive (assumeFilled st p)
      | .PARTIALLY_FILLED =>
        let (c3, st) := readEnv env st
        match c3.book with
        | some (bid, ask) =>
          -- note: the source does not round this best price
          let new_best := match side with | .SELL => ask | .BUY => bid
          if should_replace_order tolerance side p new_best then st
          else waitGo tolerance side env fuel st p
        | none => waitGo tolerance side env fuel st p
      | _ => waitGo tolerance side env fuel st p

/-- Lines 545-609 of `_execute_maker_loop`: the single-order timeout block
(wait window elapsed with the order still live at resting price `p`).
Returns the state and whether an unhandled exception escaped. -/
def timeoutBlock (env : Env) (st : LoopSt) (p : ℚ) : LoopSt × Bool :=
  let (c, st) := readEnv env st
  if c.qStatus = .NOT_FOUND then (clearLive (assumeFilled st p), false)
  else if c.qStatus = .FILLED then (clearLive (foldFill st c.qFilled p), false)
  else
    let (c2, st) := readEnv env st
    if c2.cancelRaises then (st, true)
    else if ¬c2.cancelOk then
      let (c3, st) := readEnv env st
      let st :=
        if c3.qStatus = .FILLED ∨ c3.qStatus = .NOT_FOUND then
          let actual := if 0 < c3.qFilled then c3.qFilled else st.remaining
          foldFill st actual p
        else st
      (clearLive (bumpIter st), false)
    else
      let st := if 0 < c.qFilled then foldFill st c.qFilled p else st
      (clearLive (bumpIter st), false)

/-- Lines 440-609 of `_execute_maker_loop`: the rest of one pass after the
replace check — minimum-size check on the rounded remaining quantity,
placement of a new post-only order when none is live, the wait loop, and the
single-order timeout block. -/
def passBody (tolerance : ℚ) (pair : String) (side : OrderSide) (env : Env)
    (st : LoopSt) (best : ℚ) (fuel : ℕ) : LoopSt × Ctl :=
  let rounded_remaining := round_quantity pair st.remaining
  if rounded_remaining = 0 then (st, .done)
  else
    let placeStep : LoopSt × Option Ctl :=
      match st.liveOrder with
      | none =>
        let (c, st) := readEnv env st
        if c.placeRaises then (st, some .raised)
        else if c.placeSuccess then
          let st := { st with liveOrder := some best, placedCount := st.placedCount + 1 }
          if c.placeRejected then (clearLive st, some .cont)
          else (st, none)
        else (st, some .cont)
      | some _ => (st, none)
    match placeStep with
    | (st, some ctl) => (st, ctl)
    | (st, none) =>
      match st.liveOrder with
      | none => (st, .cont)  -- unreachable: an order is live at this point
      | some p =>
        let st := waitGo tolerance side env fuel st p
        match st.liveOrder with
        | none => (st, .cont)
        | some p2 =>
          let (c, st) := readEnv env st
          if c.windowElapsed then
            match timeoutBlock env st p2 with
            | (st, true) => (st, .raised)
            | (st, false) => (st, .cont)
          else (st, .cont)

/-- One pass of the `while remaining > 0 and iterations < max_iterations`
loop of `_execute_maker_loop` (lines 341-609): the loop guard, the
total-timeout check, the book fetch, the replace check, and the rest of the
pass (`passBody`).  `rec` is the continuation for the next pass and `fuel`
bounds the inner wait loop. -/
def loopPass (cfg : MakerOrderConfig) (pair : String) (side : OrderSide)
    (env : Env) (rec : LoopSt → LoopSt × Bool) (fuel : ℕ) (st : LoopSt) :
    LoopSt × Bool :=
  if ¬(0 < st.remaining ∧ st.iterations < cfg.maxIterations) then (st, false)
  else
    let (c, st) := readEnv env st
    if c.totalExpired then (st, false)
    else
      let (c2, st) := readEnv env st
      match c2.book with
      | none => rec st  -- fetch failed: sleep, retry
      | some (bid, ask) =>
        let best := round_price cfg pair (match side with | .SELL => ask | .BUY => bid)
        let step1 : LoopSt × Ctl :=
          match st.liveOrder with
          | some p =>
            if should_replace_order cfg.priceTolerance side p best then
              replaceBlock env st p
            else (st, .fall)
          | none => (st, .fall)
        match step1 with
        | (st, .raised) => (st, true)
        | (st, .done) => (st, false)
        | (st, .cont) => rec st
        | (st, .fall) =>
          match passBody cfg.priceTolerance pair side env st best fuel with
          | (st, .cont) => rec st
          | (st, .done) => (st, false)
          | (st, .raised) => (st, true)
          | (st, .fall) => (st, false)  -- `passBody` never returns `fall`

/-- The maker loop: iterate `loopPass`, `fuel` bounding the number of passes
(every theorem below quantifies over all fuels); the returned boolean is true
when an unhandled exception escaped the loop body. -/
def loopGo (cfg : MakerOrderConfig) (pair : String) (side : OrderSide) (env : Env) :
    ℕ → LoopSt → LoopSt × Bool
  | 0, st => (st, false)
  | fuel + 1, st =>
    loopPass cfg pair side env (loopGo cfg pair side env fuel) fuel st

/-- Lines 631-657: the result computed when the loop exits normally. -/
def mkResult (cfg : MakerOrderConfig) (pair : String) (target_quantity : ℚ)
    (st : LoopSt) : MakerExecutionResult :=
  let fill_ratio := if 0 < target_quantity then st.totalFilled / target_quantity else 0
  let avg_price := if 0 < st.totalFilled then st.totalValue / st.totalFilled else 0
  let status :=
    if cfg.partialFillThreshold ≤ fill_ratio then MakerExecutionStatus.SUCCESS
    else if 0 < st.totalFilled then MakerExecutionStatus.PARTIAL
    else MakerExecutionStatus.FAILED
  { symbol := pair, status := status, targetQuantity := target_quantity,
    filledQuantity := st.totalFilled, averagePrice := avg_price,
    iterations := st.iterations, error := none }

/-- Lines 611-629: the result returned from the `except` handler (the
best-effort cancel issued there has no observable effect on the result). -/
def excResult (pair : String) (target_quantity : ℚ) (st : LoopSt) :
    MakerExecutionResult :=
  { symbol := pair, status := .FAILED, targetQuantity := target_quantity,
    filledQuantity := st.totalFilled,
    averagePrice := if 0 < st.totalFilled then st.totalValue / st.totalFilled else 0,
    iterations := st.iterations, error := some "exception" }

/-- `MakerOrderExecutor._execute_maker_loop` (lines 306-657) for one clip,
starting with environment cursor `k0`.  Returns the result together with the
final loop state (used to chain clips and to state instrumentation facts). -/
def executeMakerLoop (cfg : MakerOrderConfig) (pair : String) (side : OrderSide)
    (target_quantity : ℚ) (env : Env) (fuel : ℕ) (k0 : ℕ) :
    MakerExecutionResult × LoopSt :=
  let st0 : LoopSt :=
    { totalFilled := 0, totalValue := 0, remaining := target_quantity,
      iterations := 0, liveOrder := none, k := k0, placedCount := 0 }
  match loopGo cfg pair side env fuel st0 with
  | (st, true) => (excResult pair target_quantity st, st)
  | (st, false) => (mkResult cfg pair target_quantity st, st)

/-- Lines 713-736 of `execute_delta`: run the split clips strictly
sequentially, accumulating filled quantity, value and iteration counts, and
abandoning the remaining clips after a `FAILED` clip.  The final component
of the tuple is (total filled, total value, iterations, successful
placements, environment cursor). -/
def runClips (cfg : MakerOrderConfig) (pair : String) (side : OrderSide)
    (env : Env) (fuel : ℕ) :
    List ℚ → ℕ → ℚ → ℚ → ℕ → ℕ → ℚ × ℚ × ℕ × ℕ × ℕ
  | [], k, tf, tv, its, pl => (tf, tv, its, pl, k)
  | q :: rest, k, tf, tv, its, pl =>
    let (r, st) := executeMakerLoop cfg pair side q env fuel k
    let tf := tf + r.filledQuantity
    let tv := tv + r.filledQuantity * r.averagePrice
    let its := its + r.iterations
    let pl := pl + st.placedCount
    if r.status = .FAILED then (tf, tv, its, pl, st.k)
    else runClips cfg pair side env fuel rest st.k tf tv its pl

/-- `MakerOrderExecutor.execute_delta` (lines 659-765) for a signed delta
quantity.  The first environment cell is the book fetch used for the split
price; clips then consume cells from index 1 on.  Returns the aggregate
result and the total number of successful placements (instrumentation). -/
def executeDelta (cfg : MakerOrderConfig) (symbol : String) (delta : ℚ)
    (draws : ℕ → ℚ) (env : Env) (fuel : ℕ) : MakerExecutionResult × ℕ :=
  let pair := get_trading_pair symbol
  let quantity := ratAbs delta
  let rounded_qty := round_quantity pair quantity
  if rounded_qty = 0 then
    ({ symbol := pair, status := .SKIPPED, targetQuantity := quantity,
       filledQuantity := 0, averagePrice := 0, iterations := 0,
       error := some "below minimum order size" }, 0)
  else
    let current_price :=
      match (env 0).book with
      | some (bid, ask) => if 0 < delta then ask else bid
      | none => 0  -- price fetch failed: do not split
    let split_quantities :=
      if 0 < current_price then split_order cfg pair rounded_qty current_price draws fuel
      else [rounded_qty]
    let side := if 0 < delta then OrderSide.SELL else OrderSide.BUY
    let acc := runClips cfg pair side env fuel split_quantities 1 0 0 0 0
    let tf := acc.1
    let tv := acc.2.1
    let its := acc.2.2.1
    let pl := acc.2.2.2.1
    let fill_ratio := if 0 < rounded_qty then tf / rounded_qty else 0
    let avg_price := if 0 < tf then tv / tf else 0
    let status :=
      if cfg.partialFillThreshold ≤ fill_ratio then MakerExecutionStatus.SUCCESS
      else if 0 < tf then MakerExecutionStatus.PARTIAL
      else MakerExecutionStatus.FAILED
    ({ symbol := pair, status := status, targetQuantity := rounded_qty,
       filledQuantity := tf, averagePrice := avg_price, iterations := its,
       error := none }, pl)

/-- `TargetHedgePosition`: the two fields `calculate_deltas` reads. -/
structure TargetHedgePosition where
  amount : ℚ
  price : ℚ
deriving DecidableEq

/-- Exchange `Position`: the one field `calculate_deltas` reads
(`quantity` is negative for a short position). -/
structure Position where
  quantity : ℚ
deriving DecidableEq

/-- `PositionDelta` (services/position_manager.py). -/
structure PositionDelta where
  symbol : String
  target : ℚ
  current : ℚ
  delta : ℚ
  deltaValueUsd : ℚ
deriving DecidableEq

/-- The body of the `for symbol, target in target_positions.items()` loop of
`PositionManager.calculate_deltas`: current amount is `abs(quantity)` of the
looked-up current position or 0, `delta = target.amount - current_amount`,
`delta_value = delta * target.price`. -/
def deltaEntry (currents : List (String × Position)) (symbol : String)
    (target : TargetHedgePosition) : PositionDelta :=
  let current_amount :=
    match currents.lookup symbol with
    | some pos => ratAbs pos.quantity
    | none => 0
  let delta := target.amount - current_amount
  { symbol := symbol, target := target.amount, current := current_amount,
    delta := delta, deltaValueUsd := delta * target.price }

/-- `PositionManager.calculate_deltas` (lines 208-252).  The Python dicts are
modelled as association lists: the loop runs over the target entries in
order; `current_positions.get(symbol)` is `List.lookup`. -/
def calculate_deltas (targets : List (String × TargetHedgePosition))
    (currents : List (String × Position)) : List (String × PositionDelta) :=
  targets.map fun st => (st.1, deltaEntry currents st.1 st.2)

/-- A concrete gateway trace for a 0.03-SOL sell clip: the first post-only
order (for 0.03) is reported `CANCELED` with a partial fill of 0.011; the
second order — placed for `_round_quantity(0.019) = 0.02`, which rounds UP —
fills completely.  Every reported fill is within the quantity of the order it
answers for. -/
def envOverfill : Env := fun k =>
  match k with
  | 1 => { book := some (10, 10) }
  | 2 => { placeSuccess := true }
  | 3 => { waitTimeLeft := true }
  | 4 => { qStatus := .CANCELED, qFilled := 11/1000 }
  | 6 => { book := some (10, 10) }
  | 7 => { placeSuccess := true }
  | 8 => { waitTimeLeft := true }
  | 9 => { qStatus := .FILLED, qFilled := 2/100 }
  | _ => {}

/-- A concrete gateway trace for a 1-SOL sell clip: the first order is
`CANCELED` after filling 0.6, leaving a remaining fraction of 0.4; the engine
then places a second order for the remainder, which fills completely. -/
def envPartialStop : Env := fun k =>
  match k with
  | 1 => { book := some (10, 10) }
  | 2 => { placeSuccess := true }
  | 3 => { waitTimeLeft := true }
  | 4 => { qStatus := .CANCELED, qFilled := 6/10 }
  | 6 => { book := some (10, 10) }
  | 7 => { placeSuccess := true }
  | 8 => { waitTimeLeft := true }
  | 9 => { qStatus := .FILLED, qFilled := 4/10 }
  | _ => {}

-- Batteries marks the rational-number arithmetic irreducible, which blocks
-- `decide` on concrete runs of the embedded code; the kernel unfolds these
-- definitions regardless, so restoring reducibility only helps elaboration.
attribute [local semireducible] Rat.mul Rat.inv Rat.add Rat.sub

/-- `ratAbs` is Mathlib's absolute value. -/
theorem ratAbs_eq (x : ℚ) : ratAbs x = |x| := by
  rw [ratAbs]
  split
  · exact (abs_of_neg (by assumption)).symm
  · exact (abs_of_nonneg (not_lt.mp (by assumption))).symm

/-- `Rat.floor` (used by `roundHalfEven`) is Mathlib's `⌊·⌋`. -/
theorem ratFloor_eq (x : ℚ) : x.floor = ⌊x⌋ := by
  rw [Rat.floor_def', ← Rat.floor_def]

/-- A keyed map preserves `lookup`. -/
theorem lookup_map_keyed {α β : Type} (g : String → α → β) (s : String) :
    ∀ l : List (String × α),
      (l.map (fun p => (p.1, g p.1 p.2))).lookup s = (l.lookup s).map (g s)
  | [] => rfl
  | (k, v) :: tl => by
    by_cases h : s = k
    · subst h; simp [List.lookup]
    · have hk : (s == k) = false := beq_eq_false_iff_ne.mpr h
      simp [List.lookup, hk, lookup_map_keyed g s tl]

/-- C2: for a live resting order at price `p > 0` and best price `b`, the
replace decision is true on the sell side whenever `b > p` (independent of
the tolerance), false on the sell side whenever `b < p` with relative change
below the tolerance, true on the buy side whenever `b < p`, and true on
either side whenever the relative change exceeds the tolerance. -/
theorem c2_should_replace_rules (tolerance p b : ℚ) (hp : 0 < p) :
    (p < b → should_replace_order tolerance .SELL p b = true) ∧
    (b < p → |b - p| / p < tolerance → should_replace_order tolerance .SELL p b = false) ∧
    (b < p → should_replace_order tolerance .BUY p b = true) ∧
    (∀ side, tolerance < |b - p| / p → should_replace_order tolerance side p b = true) := by
  have hne : p ≠ 0 := ne_of_gt hp
  refine ⟨fun h => ?_, fun h1 h2 => ?_, fun h => ?_, fun side h => ?_⟩
  · simp [should_replace_order, hne, h]
  · simp [should_replace_order, hne, ratAbs_eq, not_lt.mpr (le_of_lt h1),
      not_lt.mpr (le_of_lt h2)]
  · simp [should_replace_order, hne, h]
  · cases side <;> simp [should_replace_order, hne, ratAbs_eq, h]

/-- Witness for `c2_should_replace_rules` at tolerance 0.0002, resting
price 100, and best prices 100.02 / 99.99 / 90. -/
theorem c2_should_replace_rules_witness :
    should_replace_order (2/10000) .SELL 100 (10002/100) = true ∧
    should_replace_order (2/10000) .SELL 100 (9999/100) = false ∧
    should_replace_order (2/10000) .BUY 100 (9999/100) = true ∧
    should_replace_order (2/10000) .SELL 100 90 = true :=
  ⟨(c2_should_replace_rules (2/10000) 100 (10002/100) (by norm_num)).1 (by norm_num),
   (c2_should_replace_rules (2/10000) 100 (9999/100) (by norm_num)).2.1
     (by norm_num) (by rw [abs_of_nonpos (by norm_num)]; norm_num),
   (c2_should_replace_rules (2/10000) 100 (9999/100) (by norm_num)).2.2.1 (by norm_num),
   (c2_should_replace_rules (2/10000) 100 90 (by norm_num)).2.2.2 .SELL
     (by rw [abs_of_nonpos (by norm_num)]; norm_num)⟩

/-- C6 (code bug): `_round_quantity` does round 12.345 SOL to 12.34 as the
spec's scenario says, but it does not floor: `to_integral_value()` under the
default Decimal context rounds half-to-even, so 0.019 SOL is rounded UP to
0.02 — the returned quantity exceeds the input, contradicting the claimed
`floor(q * 10^p) / 10^p` behaviour (and the source's own
"round down to avoid exceeding the available balance" comment in
`OrderExecutor._round_quantity`). -/
theorem c6_round_quantity_not_floor :
    round_quantity "SOLUSDT" (12345/1000) = 1234/100 ∧
    round_quantity "SOLUSDT" (19/1000) = 2/100 ∧
    ¬(round_quantity "SOLUSDT" (19/1000) ≤ 19/1000) := by
  refine ⟨?_, ?_, ?_⟩ <;> decide

/-- C9: `calculate_deltas` produces exactly the key set of the target map (in
target order); a symbol present only in the current-position map yields no
delta; and a target symbol with no current position gets current amount 0 and
delta equal to the target amount (valued at the target price). -/
theorem c9_calculate_deltas_keys
    (targets : List (String × TargetHedgePosition))
    (currents : List (String × Position)) :
    ((calculate_deltas targets currents).map Prod.fst = targets.map Prod.fst) ∧
    (∀ s, targets.lookup s = none →
      (calculate_deltas targets currents).lookup s = none) ∧
    (∀ s t, targets.lookup s = some t → currents.lookup s = none →
      (calculate_deltas targets currents).lookup s =
        some { symbol := s, target := t.amount, current := 0, delta := t.amount,
               deltaValueUsd := t.amount * t.price }) := by
  refine ⟨?_, fun s h => ?_, fun s t ht hc => ?_⟩
  · rw [calculate_deltas, List.map_map]; rfl
  · rw [calculate_deltas, lookup_map_keyed (deltaEntry currents) s targets, h]; rfl
  · rw [calculate_deltas, lookup_map_keyed (deltaEntry currents) s targets, ht]
    simp [deltaEntry, hc]

/-- Witness for `c9_calculate_deltas_keys` on a one-entry target map and a
disjoint one-entry current map. -/
theorem c9_calculate_deltas_keys_witness :
    ((calculate_deltas [("SOL", ⟨2, 100⟩)] [("ETH", ⟨-1⟩)]).map Prod.fst = ["SOL"]) ∧
    ((calculate_deltas [("SOL", ⟨2, 100⟩)] [("ETH", ⟨-1⟩)]).lookup "ETH" = none) ∧
    ((calculate_deltas [("SOL", ⟨2, 100⟩)] [("ETH", ⟨-1⟩)]).lookup "SOL" =
      some { symbol := "SOL", target := 2, current := 0, delta := 2,
             deltaValueUsd := 2 * 100 }) := by
  have h := c9_calculate_deltas_keys [("SOL", ⟨2, 100⟩)] [("ETH", ⟨-1⟩)]
  exact ⟨h.1, h.2.1 "ETH" (by decide), h.2.2 "SOL" ⟨2, 100⟩ (by decide) (by decide)⟩

/-- A pass with nothing left to fill exits the loop immediately. -/
theorem loopGo_of_nonpos (cfg : MakerOrderConfig) (pair : String)
    (side : OrderSide) (env : Env) (fuel : ℕ) (st : LoopSt)
    (h : ¬0 < st.remaining) : loopGo cfg pair side env fuel st = (st, false) := by
  cases fuel with
  | zero => rfl
  | succ n => exact if_pos (fun hc => h hc.1)

/-- `mkResult` classifies by fill ratio exactly as the termination policy
describes, for a positive target and positive threshold. -/
theorem mkResult_classification (cfg : MakerOrderConfig) (pair : String)
    (tq : ℚ) (st : LoopSt) (htq : 0 < tq) (hthr : 0 < cfg.partialFillThreshold) :
    (cfg.partialFillThreshold ≤ st.totalFilled / tq →
      (mkResult cfg pair tq st).status = .SUCCESS) ∧
    (0 < st.totalFilled / tq → st.totalFilled / tq < cfg.partialFillThreshold →
      (mkResult cfg pair tq st).status = .PARTIAL) ∧
    (st.totalFilled / tq = 0 → (mkResult cfg pair tq st).status = .FAILED) := by
  refine ⟨fun h => ?_, fun h1 h2 => ?_, fun h => ?_⟩
  · simp [mkResult, htq, h]
  · have htf : 0 < st.totalFilled := by
      have := mul_pos h1 htq
      rwa [div_mul_cancel₀ _ (ne_of_gt htq)] at this
    simp [mkResult, htq, not_le.mpr h2, htf]
  · have htf : st.totalFilled = 0 := by
      rcases div_eq_zero_iff.mp h with h0 | h0
      · exact h0
      · exact absurd h0 (ne_of_gt htq)
    simp [mkResult, htq, htf, not_le.mpr hthr]

/-- C10: the result construction never divides by zero — whenever the total
filled quantity is 0 the returned average price is 0 (on the normal path, the
exception path, and `execute_delta`'s aggregate alike), and a zero target
quantity makes the classification use fill ratio 0 (so the loop reports
`FAILED` for any positive threshold, never evaluating `0 / 0`). -/
theorem c10_no_division_by_zero_guards (cfg : MakerOrderConfig) (pair : String)
    (side : OrderSide) (tq : ℚ) (env : Env) (fuel k0 : ℕ) :
    ((executeMakerLoop cfg pair side tq env fuel k0).1.filledQuantity = 0 →
      (executeMakerLoop cfg pair side tq env fuel k0).1.averagePrice = 0) ∧
    (tq = 0 →
      (executeMakerLoop cfg pair side tq env fuel k0).1.filledQuantity = 0 ∧
      (executeMakerLoop cfg pair side tq env fuel k0).1.status =
        (if cfg.partialFillThreshold ≤ 0 then .SUCCESS else .FAILED)) ∧
    (∀ (symbol : String) (delta : ℚ) (draws : ℕ → ℚ),
      (executeDelta cfg symbol delta draws env fuel).1.filledQuantity = 0 →
      (executeDelta cfg symbol delta draws env fuel).1.averagePrice = 0) := by
  refine ⟨?_, ?_, ?_⟩
  · intro h0
    rcases hl : loopGo cfg pair side env fuel
        { totalFilled := 0, totalValue := 0, remaining := tq, iterations := 0,
          liveOrder := none, k := k0, placedCount := 0 } with ⟨st, b⟩
    simp only [executeMakerLoop, hl] at h0 ⊢
    cases b <;> simp_all [mkResult, excResult]
  · intro h0
    subst h0
    have hl := loopGo_of_nonpos cfg pair side env fuel
      { totalFilled := 0, totalValue := 0, remaining := 0, iterations := 0,
        liveOrder := none, k := k0, placedCount := 0 } (by norm_num)
    simp [executeMakerLoop, hl, mkResult]
  · intro symbol delta draws
    by_cases hrq : round_quantity (get_trading_pair symbol) (ratAbs delta) = 0
    · intro _; simp [executeDelta, hrq]
    · intro h0
      simp only [executeDelta, hrq, if_false] at h0 ⊢
      simp_all

/-- Witness for `c10_no_division_by_zero_guards`: a zero-quantity run against
a trivial environment fills nothing, reports average price 0 and `FAILED`. -/
theorem c10_no_division_by_zero_guards_witness :
    (executeMakerLoop {} "SOLUSDT" .SELL 0 (fun _ => {}) 3 0).1.averagePrice = 0 ∧
    (executeMakerLoop {} "SOLUSDT" .SELL 0 (fun _ => {}) 3 0).1.status = .FAILED ∧
    (executeDelta {} "SOL" 1 (fun _ => 0) (fun _ => {}) 3).1.averagePrice = 0 := by
  have h := c10_no_division_by_zero_guards {} "SOLUSDT" .SELL 0 (fun _ => {}) 3 0
  refine ⟨h.1 (by decide), ?_, h.2.2 "SOL" 1 (fun _ => 0) (by decide)⟩
  rw [(h.2.1 rfl).2, if_neg (by norm_num)]

/-- C3: when the maker loop terminates without an exception, the outcome is
classified from `fill_ratio = total_filled / target_quantity`: ratio at or
above `partial_fill_threshold` gives `SUCCESS`, a positive ratio below it
gives `PARTIAL`, ratio zero gives `FAILED`; and a delta whose quantity rounds
to zero is `SKIPPED` before any order is placed. -/
theorem c3_outcome_classification :
    (∀ (cfg : MakerOrderConfig) (pair : String) (side : OrderSide) (tq : ℚ)
       (env : Env) (fuel k0 : ℕ),
      0 < tq → 0 < cfg.partialFillThreshold →
      (executeMakerLoop cfg pair side tq env fuel k0).1.error = none →
      ((cfg.partialFillThreshold ≤
          (executeMakerLoop cfg pair side tq env fuel k0).1.filledQuantity / tq →
        (executeMakerLoop cfg pair side tq env fuel k0).1.status = .SUCCESS) ∧
       (0 < (executeMakerLoop cfg pair side tq env fuel k0).1.filledQuantity / tq →
        (executeMakerLoop cfg pair side tq env fuel k0).1.filledQuantity / tq <
          cfg.partialFillThreshold →
        (executeMakerLoop cfg pair side tq env fuel k0).1.status = .PARTIAL) ∧
       ((executeMakerLoop cfg pair side tq env fuel k0).1.filledQuantity / tq = 0 →
        (executeMakerLoop cfg pair side tq env fuel k0).1.status = .FAILED))) ∧
    (∀ (cfg : MakerOrderConfig) (symbol : String) (delta : ℚ) (draws : ℕ → ℚ)
       (env : Env) (fuel : ℕ),
      round_quantity (get_trading_pair symbol) (ratAbs delta) = 0 →
      (executeDelta cfg symbol delta draws env fuel).1.status = .SKIPPED ∧
      (executeDelta cfg symbol delta draws env fuel).2 = 0 ∧
      (executeDelta cfg symbol delta draws env fuel).1.filledQuantity = 0) := by
  constructor
  · intro cfg pair side tq env fuel k0 htq hthr herr
    rcases hl : loopGo cfg pair side env fuel
        { totalFilled := 0, totalValue := 0, remaining := tq, iterations := 0,
          liveOrder := none, k := k0, placedCount := 0 } with ⟨st, b⟩
    cases b
    · simp only [executeMakerLoop, hl]
      have hfq : (mkResult cfg pair tq st).filledQuantity = st.totalFilled := rfl
      rw [hfq]
      exact mkResult_classification cfg pair tq st htq hthr
    · simp [executeMakerLoop, hl, excResult] at herr
  · intro cfg symbol delta draws env fuel h
    simp [executeDelta, h]

/-- Witness for `c3_outcome_classification`: an environment whose book fetch
always fails fills nothing, so a 1-SOL clip exits `FAILED`; a 0.001-SOL delta
rounds to zero and is `SKIPPED`. -/
theorem c3_outcome_classification_witness :
    (executeMakerLoop {} "SOLUSDT" .SELL 1 (fun _ => {}) 2 0).1.status = .FAILED ∧
    (executeDelta {} "SOL" (1/1000) (fun _ => 0) (fun _ => {}) 2).1.status = .SKIPPED :=
  ⟨(c3_outcome_classification.1 {} "SOLUSDT" .SELL 1 (fun _ => {}) 2 0
      one_pos (by norm_num) (by decide)).2.2 (by decide),
   (c3_outcome_classification.2 {} "SOL" (1/1000) (fun _ => 0) (fun _ => {}) 2
      (by decide)).1⟩

/-- C4: at each of the three status-query sites — the replace check, the wait
window, and the single-order timeout — a `NOT_FOUND` answer makes the engine
treat the order as fully filled for the whole remaining quantity at the
resting price `p`: the fill total grows by `remaining` valued at `p`,
`remaining` becomes 0, the live-order slot is cleared, and control continues
normally (no exception, no error). -/
theorem c4_not_found_treated_as_full_fill :
    (∀ (env : Env) (st : LoopSt) (p : ℚ),
      (env st.k).qStatus = .NOT_FOUND →
      replaceBlock env st p =
        ({ totalFilled := st.totalFilled + st.remaining,
           totalValue := st.totalValue + st.remaining * p,
           remaining := 0, iterations := st.iterations, liveOrder := none,
           k := st.k + 1, placedCount := st.placedCount }, Ctl.cont)) ∧
    (∀ (tolerance : ℚ) (side : OrderSide) (env : Env) (fuel : ℕ)
       (st : LoopSt) (p : ℚ),
      (env st.k).waitTimeLeft = true →
      (env (st.k + 1)).qStatus = .NOT_FOUND →
      waitGo tolerance side env (fuel + 1) st p =
        { totalFilled := st.totalFilled + st.remaining,
          totalValue := st.totalValue + st.remaining * p,
          remaining := 0, iterations := st.iterations, liveOrder := none,
          k := st.k + 2, placedCount := st.placedCount }) ∧
    (∀ (env : Env) (st : LoopSt) (p : ℚ),
      (env st.k).qStatus = .NOT_FOUND →
      timeoutBlock env st p =
        ({ totalFilled := st.totalFilled + st.remaining,
           totalValue := st.totalValue + st.remaining * p,
           remaining := 0, iterations := st.iterations, liveOrder := none,
           k := st.k + 1, placedCount := st.placedCount }, false)) := by
  refine ⟨fun env st p h => ?_, fun tolerance side env fuel st p h1 h2 => ?_,
    fun env st p h => ?_⟩
  · simp [replaceBlock, readEnv, h, isTerminalStatus, assumeFilled, clearLive]
  · simp [waitGo, readEnv, h1, h2, assumeFilled, clearLive]
  · simp [timeoutBlock, readEnv, h, assumeFilled, clearLive]

/-- Witness for `c4_not_found_treated_as_full_fill` on a concrete state
(3 remaining at resting price 7) and an environment always answering
`NOT_FOUND`. -/
theorem c4_not_found_treated_as_full_fill_witness :
    replaceBlock (fun _ => { qStatus := .NOT_FOUND, waitTimeLeft := true })
        ⟨1, 2, 3, 4, some 5, 0, 6⟩ 7 =
      (⟨4, 23, 0, 4, none, 1, 6⟩, Ctl.cont) ∧
    waitGo 0 .SELL (fun _ => { qStatus := .NOT_FOUND, waitTimeLeft := true })
        1 ⟨1, 2, 3, 4, some 5, 0, 6⟩ 7 =
      ⟨4, 23, 0, 4, none, 2, 6⟩ ∧
    timeoutBlock (fun _ => { qStatus := .NOT_FOUND, waitTimeLeft := true })
        ⟨1, 2, 3, 4, some 5, 0, 6⟩ 7 =
      (⟨4, 23, 0, 4, none, 1, 6⟩, false) := by
  refine ⟨?_, ?_, ?_⟩
  · rw [c4_not_found_treated_as_full_fill.1
      (fun _ => { qStatus := .NOT_FOUND, waitTimeLeft := true })
      ⟨1, 2, 3, 4, some 5, 0, 6⟩ 7 rfl]
    decide
  · rw [c4_not_found_treated_as_full_fill.2.1 0 .SELL
      (fun _ => { qStatus := .NOT_FOUND, waitTimeLeft := true }) 0
      ⟨1, 2, 3, 4, some 5, 0, 6⟩ 7 rfl rfl]
    decide
  · rw [c4_not_found_treated_as_full_fill.2.2
      (fun _ => { qStatus := .NOT_FOUND, waitTimeLeft := true })
      ⟨1, 2, 3, 4, some 5, 0, 6⟩ 7 rfl]
    decide

/-- C5: at both cancel sites (the replace block and the single-order timeout
block), a cancel that returns false is followed by a mandatory status
re-query, and the outcome is decided by that re-query: if it reports `FILLED`
or `NOT_FOUND` the queried filled quantity (or, when that is zero, the whole
remaining quantity) is folded into the totals; in every case the block clears
the live-order slot, counts one iteration, and hands control back with
`continue` — a failed cancel never terminates the clip and never raises. -/
theorem c5_failed_cancel_requeries :
    (∀ (env : Env) (st : LoopSt) (p : ℚ),
      isTerminalStatus (env st.k).qStatus = false →
      (env st.k).qStatus ≠ .NOT_FOUND →
      (env (st.k + 1)).cancelRaises = false →
      (env (st.k + 1)).cancelOk = false →
      replaceBlock env st p =
        ((if (env (st.k + 2)).qStatus = .FILLED ∨ (env (st.k + 2)).qStatus = .NOT_FOUND then
            (let actual := if 0 < (env (st.k + 2)).qFilled then (env (st.k + 2)).qFilled
                           else st.remaining
             { totalFilled := st.totalFilled + actual,
               totalValue := st.totalValue + actual * p,
               remaining := st.remaining - actual, iterations := st.iterations + 1,
               liveOrder := none, k := st.k + 3, placedCount := st.placedCount })
          else
            { totalFilled := st.totalFilled, totalValue := st.totalValue,
              remaining := st.remaining, iterations := st.iterations + 1,
              liveOrder := none, k := st.k + 3, placedCount := st.placedCount }),
         Ctl.cont)) ∧
    (∀ (env : Env) (st : LoopSt) (p : ℚ),
      (env st.k).qStatus ≠ .NOT_FOUND →
      (env st.k).qStatus ≠ .FILLED →
      (env (st.k + 1)).cancelRaises = false →
      (env (st.k + 1)).cancelOk = false →
      timeoutBlock env st p =
        ((if (env (st.k + 2)).qStatus = .FILLED ∨ (env (st.k + 2)).qStatus = .NOT_FOUND then
            (let actual := if 0 < (env (st.k + 2)).qFilled then (env (st.k + 2)).qFilled
                           else st.remaining
             { totalFilled := st.totalFilled + actual,
               totalValue := st.totalValue + actual * p,
               remaining := st.remaining - actual, iterations := st.iterations + 1,
               liveOrder := none, k := st.k + 3, placedCount := st.placedCount })
          else
            { totalFilled := st.totalFilled, totalValue := st.totalValue,
              remaining := st.remaining, iterations := st.iterations + 1,
              liveOrder := none, k := st.k + 3, placedCount := st.placedCount }),
         false)) := by
  constructor
  · intro env st p ht hnf hcr hco
    simp only [replaceBlock, readEnv, ht, hnf, hcr, hco, Bool.false_eq_true,
      if_false, foldFill, clearLive, bumpIter]
    split <;> simp
  · intro env st p hnf hfl hcr hco
    have h2 : st.k + 1 + 1 = st.k + 2 := rfl
    have h3 : st.k + 1 + 1 + 1 = st.k + 3 := rfl
    simp only [timeoutBlock, readEnv, hnf, hfl, hcr, hco, Bool.false_eq_true,
      if_false, foldFill, clearLive, bumpIter, not_false_iff, if_true, h2, h3,
      Bool.not_false]
    split <;> simp

/-- Witness for `c5_failed_cancel_requeries`: a live order (status query
`UNKNOWN`), a cancel that returns false, and a re-query reporting `FILLED`
with 2 units filled, folded at resting price 7. -/
theorem c5_failed_cancel_requeries_witness :
    replaceBlock
        (fun k => if k = 2 then { qStatus := .FILLED, qFilled := 2 }
                  else { qStatus := .UNKNOWN })
        ⟨1, 2, 3, 4, some 5, 0, 6⟩ 7 =
      (⟨3, 16, 1, 5, none, 3, 6⟩, Ctl.cont) ∧
    timeoutBlock
        (fun k => if k = 2 then { qStatus := .FILLED, qFilled := 2 }
                  else { qStatus := .UNKNOWN })
        ⟨1, 2, 3, 4, some 5, 0, 6⟩ 7 =
      (⟨3, 16, 1, 5, none, 3, 6⟩, false) := by
  constructor
  · rw [c5_failed_cancel_requeries.1
      (fun k => if k = 2 then { qStatus := .FILLED, qFilled := 2 }
                else { qStatus := .UNKNOWN })
      ⟨1, 2, 3, 4, some 5, 0, 6⟩ 7 (by decide) (by decide) (by decide) (by decide)]
    decide
  · rw [c5_failed_cancel_requeries.2
      (fun k => if k = 2 then { qStatus := .FILLED, qFilled := 2 }
                else { qStatus := .UNKNOWN })
      ⟨1, 2, 3, 4, some 5, 0, 6⟩ 7 (by decide) (by decide) (by decide) (by decide)]
    decide

/-- C1 (code bug): the invariant `filled_quantity <= target_quantity` fails
for a single clip.  With target 0.03 SOL, a legal response sequence (first
order canceled after a 0.011 partial fill, second order fully filled) makes
the engine over-fill: `_round_quantity` rounds the remaining 0.019 UP to
0.02 (half-even rounding instead of the intended floor), the 0.02 order
fills, and the clip reports 0.031 filled against a 0.03 target. -/
theorem c1_maker_loop_overfill :
    (executeMakerLoop {} "SOLUSDT" .SELL (3/100) envOverfill 10 0).1.targetQuantity
      = 3/100 ∧
    (executeMakerLoop {} "SOLUSDT" .SELL (3/100) envOverfill 10 0).1.filledQuantity
      = 31/1000 ∧
    ¬((executeMakerLoop {} "SOLUSDT" .SELL (3/100) envOverfill 10 0).1.filledQuantity
      ≤ (executeMakerLoop {} "SOLUSDT" .SELL (3/100) envOverfill 10 0).1.targetQuantity) := by
  refine ⟨?_, ?_, ?_⟩ <;> decide

/-- C7 (code bug): the splitter's clip quantities can sum to MORE than the
input quantity.  With split randomization off (min 100 / max 300 / threshold
500, the shipped defaults), quantity 500.019 at price 1 splits into
[200, 200, 100.02]: the final clip is `_round_quantity(100.019) = 100.02`,
rounded UP by the half-even rounding, so the clips sum to 500.02 > 500.019.
With the floor rounding the spec describes, the sum could never exceed the
input. -/
theorem c7_split_sum_overshoot :
    split_order { splitOrderRandom := false } "SOLUSDT" (500019/1000) 1
        (fun _ => 0) 10 = [200, 200, 10002/100] ∧
    ¬((split_order { splitOrderRandom := false } "SOLUSDT" (500019/1000) 1
        (fun _ => 0) 10).sum ≤ 500019/1000) := by
  refine ⟨?_, ?_⟩ <;> decide

/-- C8 (counterexample): `min_remaining_ratio` does not stop the engine.
With `min_remaining_ratio = 0.5` and target 1 SOL, after the first order is
canceled with 0.6 filled the remaining fraction is 0.4 < 0.5, yet the engine
places a second order for the remainder (2 successful placements in total). -/
theorem c8_min_remaining_fraction_unused_cex :
    (executeMakerLoop { minRemainingFraction := 1/2 } "SOLUSDT" .SELL 1
        envPartialStop 10 0).2.placedCount = 2 ∧
    ((1 : ℚ) - 6/10) / 1 <
      MakerOrderConfig.minRemainingFraction { minRemainingFraction := 1/2 } := by
  refine ⟨?_, ?_⟩ <;> decide

/-- C8 (amended): `min_remaining_ratio` is accepted in the configuration but
never read by the engine — the whole clip execution is unchanged under any
change of the option (the engine instead stops placing when the remaining
quantity rounds to zero at symbol precision). -/
theorem c8_min_remaining_fraction_no_effect (cfg : MakerOrderConfig) (r : ℚ)
    (pair : String) (side : OrderSide) (env : Env) :
    (∀ (fuel : ℕ) (st : LoopSt),
      loopGo { cfg with minRemainingFraction := r } pair side env fuel st =
        loopGo cfg pair side env fuel st) ∧
    (∀ (tq : ℚ) (fuel k0 : ℕ),
      executeMakerLoop { cfg with minRemainingFraction := r } pair side tq env fuel k0 =
        executeMakerLoop cfg pair side tq env fuel k0) := by
  have hloop : ∀ (fuel : ℕ) (st : LoopSt),
      loopGo { cfg with minRemainingFraction := r } pair side env fuel st =
        loopGo cfg pair side env fuel st := by
    intro fuel
    induction fuel with
    | zero => intro st; rfl
    | succ n ih =>
      intro st
      have hpass : ∀ (rec : LoopSt → LoopSt × Bool) (f : ℕ) (s : LoopSt),
          loopPass { cfg with minRemainingFraction := r } pair side env rec f s =
            loopPass cfg pair side env rec f s := fun _ _ _ => rfl
      show loopPass { cfg with minRemainingFraction := r } pair side env
          (loopGo { cfg with minRemainingFraction := r } pair side env n) n st =
        loopPass cfg pair side env (loopGo cfg pair side env n) n st
      rw [hpass, funext ih]
  refine ⟨hloop, fun tq fuel k0 => ?_⟩
  rcases hl : loopGo cfg pair side env fuel
      { totalFilled := 0, totalValue := 0, remaining := tq, iterations := 0,
        liveOrder := none, k := k0, placedCount := 0 } with ⟨st, b⟩
  simp only [executeMakerLoop, hloop, hl]
  cases b <;> rfl
